import Mathlib

/-!
Verification of the Hardcover sync engine (calibre plugin, `src/__init__.py`).

The development shallowly embeds the plugin's pure decision logic:

* string normalisation helpers used by the matcher (`lower`/`strip`,
  separator stripping, substring containment);
* `HardcoverAPI.is_book_already_owned` (the matcher);
* `HardcoverAPI.search_books_by_title` / `search_books_by_isbn`
  (remote responses abstracted as `Except`-valued oracles);
* `HardcoverAPI.get_owned_books_with_titles` (snapshot construction);
* `HardcoverAPI._throttle` timing arithmetic (time as rationals);
* the `SyncJob.run` comparison and processing loops, with the per-book
  remote interactions abstracted as oracles and the remote calls a book
  triggers recorded as an explicit trace.
-/

/-- Characters of a string, Python `str.lower()` (ASCII-adequate embedding). -/
def pyLower (s : String) : String := String.mk (s.data.map Char.toLower)

/-- Python `str.strip()`: drop leading and trailing whitespace. -/
def pyStrip (s : String) : String :=
  String.mk (((s.data.dropWhile Char.isWhitespace).reverse.dropWhile Char.isWhitespace).reverse)

/-- Python `s.lower().strip()` as used throughout the matcher. -/
def pyLowerStrip (s : String) : String := pyStrip (pyLower s)

/-- Python `s.replace('-', '').replace(' ', '')`: remove every hyphen and space. -/
def stripSeps (s : String) : String :=
  String.mk (s.data.filter (fun c => !(c == Char.ofNat 45 || c == Char.ofNat 32)))

/-- `isPrefixB n h`: is `n` a prefix of `h` (over characters)? -/
def isPrefixB : List Char → List Char → Bool
  | [], _ => true
  | _ :: _, [] => false
  | a :: xs, b :: ys => a == b && isPrefixB xs ys

/-- `isSubListB n h`: does `n` occur contiguously inside `h`? -/
def isSubListB : List Char → List Char → Bool
  | needle, [] => needle.isEmpty
  | needle, l@(_ :: t) => isPrefixB needle l || isSubListB needle t

/-- Python `needle in hay` on strings: contiguous substring containment. -/
def containsSub (hay needle : String) : Bool := isSubListB needle.data hay.data

/-- Is every character of `s` a decimal digit? (Used to state the spec's
"digits only, no separators" normal form for isbns.) -/
def digitsOnly (s : String) : Bool := s.data.all Char.isDigit

/-- A snapshot entry, the dict stored per book id by
`get_owned_books_with_titles` (and synthesised in `SyncJob.run`).
The snapshot dict is modelled as a list of entries in insertion order. -/
structure Entry where
  id : String
  title : String
  authors : List String
  isbns : List String
  slug : String
deriving DecidableEq

/-- `clean_isbn = isbn.replace('-', '').replace(' ', '') if isbn else None`. -/
def cleanIsbnOpt : Option String → Option String
  | none => none
  | some s => if s == "" then none else some (stripSeps s)

/-- The per-entry isbn test of `is_book_already_owned`:
`if clean_isbn and book_info['isbns']: if clean_isbn in book_info['isbns']: return book_id`. -/
def isbnHit : Option String → Entry → Bool
  | none, _ => false
  | some c, e => !(c == "") && !e.isbns.isEmpty && e.isbns.contains c

/-- The per-entry fuzzy title test of `is_book_already_owned`: both cleaned
titles non-empty and equal, or one contained in the other. -/
def titleHit (ct : String) (e : Entry) : Bool :=
  !(e.title == "") && !(ct == "") &&
    (ct == e.title || containsSub e.title ct || containsSub ct e.title)

/-- The author-overlap test: some pair of lowercased, stripped names where
one contains the other. -/
def authorOverlap (auths1 auths2 : List String) : Bool :=
  (auths1.map pyLowerStrip).any (fun ca =>
    (auths2.map pyLowerStrip).any (fun ha => containsSub ha ca || containsSub ca ha))

/-- Does the loop body of `is_book_already_owned` return this entry's id?
ISBN test first, then title test refined by the author check when both
sides have authors. -/
def entryHit (ct : String) (auths : List String) (ci : Option String) (e : Entry) : Bool :=
  isbnHit ci e ||
    (titleHit ct e &&
      (if !auths.isEmpty && !e.authors.isEmpty then authorOverlap auths e.authors else true))

/-- The `for book_id, book_info in owned_books.items()` loop: first entry
whose body returns wins. -/
def alreadyOwnedAux (ct : String) (auths : List String) (ci : Option String) :
    List Entry → Option String
  | [] => none
  | e :: rest => if entryHit ct auths ci e then some e.id else alreadyOwnedAux ct auths ci rest

/-- `HardcoverAPI.is_book_already_owned(title, authors, isbn, owned_books)`. -/
def is_book_already_owned (title : String) (auths : List String) (isbn : Option String)
    (owned : List Entry) : Option String :=
  alreadyOwnedAux (pyLowerStrip title) auths (cleanIsbnOpt isbn) owned

example : pyLowerStrip "  Dune " = "dune" := by rfl
example : stripSeps "978-0-441 01359-3" = "9780441013593" := by rfl
example : containsSub "dune messiah" "dune" = true := by rfl
example : containsSub "dune" "" = true := by rfl
example :
    is_book_already_owned "Dune" [] (some "9780441013593")
      [⟨"7", "dune", [], ["9780441013593"], ""⟩] = some "7" := by rfl

/-- A non-empty list is not `isEmpty`. -/
lemma ne_nil_isEmpty_false {α : Type} {l : List α} (h : l ≠ []) : l.isEmpty = false := by
  cases l with
  | nil => exact absurd rfl h
  | cons a t => rfl

/-- `contains` succeeding forces the list to be non-empty. -/
lemma contains_isEmpty_false {l : List String} {c : String} (h : l.contains c = true) :
    l.isEmpty = false := by
  cases l with
  | nil => simp [List.contains] at h
  | cons a t => rfl

/-- Entries that never fire can be dropped from the front of the scan. -/
lemma alreadyOwnedAux_append_none (ct : String) (auths : List String) (ci : Option String)
    (pre l : List Entry) (h : ∀ p ∈ pre, entryHit ct auths ci p = false) :
    alreadyOwnedAux ct auths ci (pre ++ l) = alreadyOwnedAux ct auths ci l := by
  induction pre with
  | nil => rfl
  | cons p rest ih =>
    have hp : entryHit ct auths ci p = false := h p (List.mem_cons_self p rest)
    simp only [List.cons_append, alreadyOwnedAux, hp]
    exact ih (fun q hq => h q (List.mem_cons_of_mem p hq))

/-- C1 counterexample: the candidate's normalised isbn is in the second
entry's isbn set, yet the function returns the FIRST entry's id, because
that entry already fires on the fuzzy title rule before the isbn-holding
entry is reached. -/
theorem c1_counterexample :
    stripSeps "9780441013593" ≠ "" ∧
    (⟨"2", "other", [], ["9780441013593"], ""⟩ : Entry).isbns.contains
      (stripSeps "9780441013593") = true ∧
    is_book_already_owned "Dune" [] (some "9780441013593")
      [⟨"1", "dune", [], [], ""⟩, ⟨"2", "other", [], ["9780441013593"], ""⟩] = some "1" ∧
    ("1" : String) ≠ "2" :=
  ⟨by decide, by rfl, by rfl, by decide⟩

/-- C1 (amended): the isbn rule has priority over the title/author rule
only within each entry, not across the whole snapshot. If the candidate's
normalised isbn is non-empty and in entry `e`'s isbn set, and no earlier
entry fires (by its own isbn or title/author rule), the matcher returns
`e.id` regardless of any title or author content. -/
theorem c1_amended_isbn_priority_per_entry (title : String) (auths : List String)
    (isbn : Option String) (c : String) (pre post : List Entry) (e : Entry)
    (hc : cleanIsbnOpt isbn = some c) (hne : c ≠ "")
    (hmem : e.isbns.contains c = true)
    (hpre : ∀ p ∈ pre, entryHit (pyLowerStrip title) auths (cleanIsbnOpt isbn) p = false) :
    is_book_already_owned title auths isbn (pre ++ e :: post) = some e.id := by
  unfold is_book_already_owned
  rw [alreadyOwnedAux_append_none _ _ _ pre _ hpre]
  have hhit : entryHit (pyLowerStrip title) auths (cleanIsbnOpt isbn) e = true := by
    unfold entryHit isbnHit
    rw [hc]
    have hmem' : c ∈ e.isbns := by simpa using hmem
    simp [hne, contains_isEmpty_false hmem]
    exact Or.inl hmem'
  simp [alreadyOwnedAux, hhit]

/-- C1 amended, exercised at a concrete input: the isbn-holding entry is
returned once the preceding entry does not fire. -/
theorem c1_amended_witness :
    is_book_already_owned "Zzz" [] (some "123")
      [⟨"a", "other", [], [], ""⟩, ⟨"2", "whatever", ["x"], ["123"], ""⟩] = some "2" :=
  c1_amended_isbn_priority_per_entry "Zzz" [] (some "123") "123"
    [⟨"a", "other", [], [], ""⟩] [] ⟨"2", "whatever", ["x"], ["123"], ""⟩
    (by rfl) (by decide) (by rfl) (by decide)

/-- C7 counterexample. Part 1: an entry whose normalised title is empty is
contained in any candidate title, and has no authors, yet the matcher
rejects it (the code additionally requires both titles non-empty).
Part 2: an entry with a title match and non-overlapping authors is NOT
rejected when its isbn set contains the candidate's isbn. -/
theorem c7_counterexample :
    (containsSub (pyLowerStrip "Dune") (pyLowerStrip "") = true ∧
      is_book_already_owned "Dune" [] none [⟨"7", "", [], [], ""⟩] = none ∧
      (none : Option String) ≠ some "7") ∧
    (authorOverlap ["Alice"] ["Bob"] = false ∧
      is_book_already_owned "Dune" ["Alice"] (some "123")
        [⟨"9", "dune", ["Bob"], ["123"], ""⟩] = some "9" ∧
      some "9" ≠ (none : Option String)) :=
  ⟨⟨by rfl, by rfl, by decide⟩, ⟨by rfl, by rfl, by decide⟩⟩

/-- C7 (amended): for an entry whose normalised title and the candidate's
normalised title are both non-empty and equal or one contains the other:
if either side has no author data the entry is accepted on the title match
alone; if both sides have authors, no author pair overlaps, and the entry
does not fire the isbn rule, the entry is rejected and the scan continues
with the remaining entries. -/
theorem c7_amended_title_author_rule (t : String) (auths : List String) (isbn : Option String)
    (e : Entry) (rest : List Entry)
    (h1 : ¬ pyLowerStrip t = "") (h2 : ¬ e.title = "")
    (h3 : pyLowerStrip t = e.title ∨ containsSub e.title (pyLowerStrip t) = true ∨
      containsSub (pyLowerStrip t) e.title = true) :
    ((auths = [] ∨ e.authors = []) →
      is_book_already_owned t auths isbn (e :: rest) = some e.id) ∧
    (auths ≠ [] → e.authors ≠ [] → authorOverlap auths e.authors = false →
      isbnHit (cleanIsbnOpt isbn) e = false →
      is_book_already_owned t auths isbn (e :: rest) =
        is_book_already_owned t auths isbn rest) := by
  have htitle : titleHit (pyLowerStrip t) e = true := by
    unfold titleHit
    rcases h3 with h | h | h <;> simp [h1, h2, h]
  constructor
  · intro hor
    have hhit : entryHit (pyLowerStrip t) auths (cleanIsbnOpt isbn) e = true := by
      unfold entryHit
      have hcond : (!auths.isEmpty && !e.authors.isEmpty) = false := by
        rcases hor with h | h <;> simp [h]
      rw [hcond]
      simp [htitle]
    simp [is_book_already_owned, alreadyOwnedAux, hhit]
  · intro ha he hov hib
    have hhit : entryHit (pyLowerStrip t) auths (cleanIsbnOpt isbn) e = false := by
      unfold entryHit
      have hcond : (!auths.isEmpty && !e.authors.isEmpty) = true := by
        simp [ne_nil_isEmpty_false ha, ne_nil_isEmpty_false he]
      rw [hcond, hib, hov]
      simp
    simp [is_book_already_owned, alreadyOwnedAux, hhit]

/-- C7 amended, exercised at concrete inputs: a title-only match with no
candidate authors is accepted; a title match with disjoint author sets is
skipped and the scan moves on. -/
theorem c7_amended_witness :
    is_book_already_owned "Dune" [] none [⟨"7", "dune messiah", [], [], ""⟩] = some "7" ∧
    is_book_already_owned "Dune" ["Alice"] none
        [⟨"9", "dune", ["Bob"], [], ""⟩, ⟨"z", "dune", [], [], ""⟩] =
      is_book_already_owned "Dune" ["Alice"] none [⟨"z", "dune", [], [], ""⟩] :=
  ⟨(c7_amended_title_author_rule "Dune" [] none ⟨"7", "dune messiah", [], [], ""⟩ []
      (by decide) (by decide) (Or.inr (Or.inl (by rfl)))).1 (Or.inl rfl),
   (c7_amended_title_author_rule "Dune" ["Alice"] none ⟨"9", "dune", ["Bob"], [], ""⟩
      [⟨"z", "dune", [], [], ""⟩] (by decide) (by decide) (Or.inl (by rfl))).2
      (by decide) (by decide) (by rfl) (by rfl)⟩

/-- The mutable state of a `HardcoverAPI` client relevant to throttling:
`_last_request` (initially `0.0`), the stored `_rate_limit_delay`
constructor argument, and `_requests_per_minute` (set to `60`).
Time is modelled exactly, as rationals. -/
structure ClientState where
  lastRequest : ℚ
  rateLimitDelay : ℚ
  requestsPerMinute : ℚ
deriving DecidableEq

/-- `HardcoverAPI.__init__(token, rate_limit_delay)`: the throttling fields. -/
def initClient (rateLimitDelay : ℚ) : ClientState :=
  { lastRequest := 0, rateLimitDelay := rateLimitDelay, requestsPerMinute := 60 }

/-- `HardcoverAPI._throttle` at wall-clock time `now`: the amount the call
sleeps. `elapsed = now - _last_request`; `min_delay = 60.0 / _requests_per_minute`;
sleep `min_delay - elapsed` when `elapsed < min_delay`, else nothing. -/
def throttleWait (s : ClientState) (now : ℚ) : ℚ :=
  let elapsed := now - s.lastRequest
  let minDelay := 60 / s.requestsPerMinute
  if elapsed < minDelay then minDelay - elapsed else 0

/-- C2: `_throttle` never reads the stored `_rate_limit_delay`. Its sleep is
identical for any two configured delays, and a client configured with the
default delay `1.1` lets a second call through after only `1` second
(`60 / 60 = 1`), strictly less than the configured `1.1` seconds. -/
theorem c2_throttle_ignores_rate_limit_delay :
    (∀ d d' last now : ℚ,
      throttleWait { lastRequest := last, rateLimitDelay := d, requestsPerMinute := 60 } now =
        throttleWait { lastRequest := last, rateLimitDelay := d', requestsPerMinute := 60 } now) ∧
    (initClient (11 / 10)).rateLimitDelay = 11 / 10 ∧
    throttleWait (initClient (11 / 10)) 1 = 0 ∧
    (1 : ℚ) < 11 / 10 := by
  refine ⟨fun d d' last now => rfl, rfl, ?_, by norm_num⟩
  show (if (1 : ℚ) - 0 < 60 / 60 then 60 / 60 - (1 - 0) else 0) = 0
  norm_num

/-- An ephemeral search result (`SearchCandidate`): the fields the sync job
reads. `id` is `none` when the returned record has no `id` key (reading it
then raises `KeyError`). -/
structure Candidate where
  id : Option String
  title : String
deriving DecidableEq

/-- An edition record returned by the isbn search, with its optional
nested `book`. -/
structure IsbnEdition where
  isbn10 : Option String
  isbn13 : Option String
  book : Option Candidate
deriving DecidableEq

/-- `HardcoverAPI.search_books_by_title`. The GraphQL transport is the
oracle `remote`, fed the `%title%` wildcard pattern; it raises
(`Except.error`), returns a payload without a `books` key (`none`), or
returns the list of books. Every failure is caught and mapped to `[]`. -/
def search_books_by_title (title : String)
    (remote : String → Except String (Option (List Candidate))) : List Candidate :=
  match remote ("%" ++ title ++ "%") with
  | Except.error _ => []
  | Except.ok none => []
  | Except.ok (some bs) => bs

/-- The `$isbn10`/`$isbn13` variables computed by `search_books_by_isbn`:
the cleaned isbn when its length is exactly 10 resp. 13. -/
def isbnVariables (isbn : String) : Option String × Option String :=
  let clean := stripSeps isbn
  (if clean.length == 10 then some clean else none,
   if clean.length == 13 then some clean else none)

/-- `HardcoverAPI.search_books_by_isbn`: query editions by the computed
variables, keep the editions that carry a nested `book`, and map every
failure to `[]`. -/
def search_books_by_isbn (isbn : String)
    (remote : Option String × Option String → Except String (Option (List IsbnEdition))) :
    List Candidate :=
  match remote (isbnVariables isbn) with
  | Except.error _ => []
  | Except.ok none => []
  | Except.ok (some eds) => eds.filterMap (fun ed => ed.book)

/-- C4: for every title and isbn, if the remote call inside a search method
raises, yields a payload without the expected key, or yields an empty
result list, the method returns the empty sequence instead of raising. -/
theorem c4_search_failure_yields_empty (title isbn : String)
    (rt : String → Except String (Option (List Candidate)))
    (ri : Option String × Option String → Except String (Option (List IsbnEdition))) :
    (((∃ e, rt ("%" ++ title ++ "%") = Except.error e) ∨
        rt ("%" ++ title ++ "%") = Except.ok none ∨
        rt ("%" ++ title ++ "%") = Except.ok (some [])) →
      search_books_by_title title rt = []) ∧
    (((∃ e, ri (isbnVariables isbn) = Except.error e) ∨
        ri (isbnVariables isbn) = Except.ok none ∨
        ri (isbnVariables isbn) = Except.ok (some [])) →
      search_books_by_isbn isbn ri = []) := by
  constructor
  · intro h
    unfold search_books_by_title
    rcases h with ⟨e, h⟩ | h | h <;> simp [h]
  · intro h
    unfold search_books_by_isbn
    rcases h with ⟨e, h⟩ | h | h <;> simp [h]

/-- C4 exercised at concrete inputs: a raising transport yields `[]` from
both search methods. -/
theorem c4_search_failure_witness :
    search_books_by_title "Dune" (fun _ => Except.error "Network error") = [] ∧
    search_books_by_isbn "9780441013593" (fun _ => Except.error "Network error") = [] :=
  ⟨(c4_search_failure_yields_empty "Dune" "9780441013593"
      (fun _ => Except.error "Network error") (fun _ => Except.error "Network error")).1
      (Or.inl ⟨"Network error", rfl⟩),
   (c4_search_failure_yields_empty "Dune" "9780441013593"
      (fun _ => Except.error "Network error") (fun _ => Except.error "Network error")).2
      (Or.inl ⟨"Network error", rfl⟩)⟩

/-- An edition record of the owned-books query (`isbn_10`, `isbn_13`). -/
structure EditionData where
  isbn10 : Option String
  isbn13 : Option String
deriving DecidableEq

/-- A contribution record of the owned-books query (`author.name`). -/
structure ContributionData where
  authorName : Option String
deriving DecidableEq

/-- A `book` record of the owned-books query. `id` is already the result of
`str(book_data.get('id', ''))` (so `""` means the key was missing). -/
structure BookData where
  id : String
  title : String
  slug : String
  contributions : List ContributionData
  editions : List EditionData
deriving DecidableEq

/-- A `user_books` row; `book` is `none` when the `book` key is missing
(the row is then skipped because its id stringifies to `""`). -/
structure UserBook where
  book : Option BookData
deriving DecidableEq

/-- Python truthiness on an optional string field: the value as a singleton
when present and non-empty, else nothing. -/
def truthyOpt (o : Option String) : List String :=
  match o with
  | some v => if v == "" then [] else [v]
  | none => []

/-- The isbn strings one edition contributes to the entry's isbn set:
`isbn_10` and `isbn_13`, each only when truthy, verbatim. -/
def edIsbns (ed : EditionData) : List String := truthyOpt ed.isbn10 ++ truthyOpt ed.isbn13

/-- The isbn set collected over all editions (set membership is all the
code ever uses, so the set is modelled as the list of added strings). -/
def extractIsbns (eds : List EditionData) : List String := eds.flatMap edIsbns

/-- The author names collected over all contributions, each when truthy. -/
def extractAuthors (cs : List ContributionData) : List String :=
  cs.flatMap (fun c => truthyOpt c.authorName)

/-- A string can only come out of `truthyOpt o` if it was the stored value. -/
lemma mem_truthyOpt {o : Option String} {s : String} (h : s ∈ truthyOpt o) : o = some s := by
  cases o with
  | none => simp [truthyOpt] at h
  | some v =>
    by_cases hv : v = ""
    · simp [truthyOpt, hv] at h
    · simp [truthyOpt, hv] at h
      rw [h]

/-- Insert-or-update on the snapshot, Python `owned_books[book_id] = info`:
an existing entry with the same id is replaced in place, otherwise the
entry is appended. -/
def upsertEntry : List Entry → Entry → List Entry
  | [], e => [e]
  | x :: xs, e => if x.id == e.id then e :: xs else x :: upsertEntry xs e

/-- The snapshot entry `get_owned_books_with_titles` builds for one book:
title lowercased and stripped, authors and isbns taken verbatim. -/
def buildOwnedEntry (bd : BookData) : Entry :=
  { id := bd.id, title := pyLowerStrip bd.title, authors := extractAuthors bd.contributions,
    isbns := extractIsbns bd.editions, slug := bd.slug }

/-- `HardcoverAPI.get_owned_books_with_titles`: any exception from the
query is caught and the empty snapshot returned; a payload without the
`user_books` key (`none`) also gives the empty snapshot; rows without a
usable book id are skipped. -/
def get_owned_books_with_titles (resp : Except String (Option (List UserBook))) : List Entry :=
  match resp with
  | Except.error _ => []
  | Except.ok none => []
  | Except.ok (some ubs) =>
      ubs.foldl (fun acc ub =>
        match ub.book with
        | none => acc
        | some bd => if bd.id == "" then acc else upsertEntry acc (buildOwnedEntry bd)) []

/-- The entry `SyncJob.run` synthesises into the in-memory snapshot after a
successful `add_book_to_owned`: lowercased stripped title, the authors
verbatim, the raw calibre isbn as the whole isbn set (when truthy), empty
slug. -/
def synthEntry (cid : String) (title : String) (authors : List String)
    (isbn : Option String) : Entry :=
  { id := cid, title := pyLowerStrip title, authors := authors,
    isbns :=
      match isbn with
      | some i => if i == "" then [] else [i]
      | none => [],
    slug := "" }

/-- C6 counterexample: the entry synthesised after marking a book with raw
isbn `978-0-441-01359-3` owned stores that string verbatim — it contains
separators, so it is not in the spec's digits-only normal form — and a
fetched entry likewise stores the remote edition's string verbatim.
Consequently a later candidate carrying the same raw isbn is NOT matched by
the isbn rule against the synthesised entry (its normalised isbn differs
from the stored raw one). -/
theorem c6_counterexample :
    (synthEntry "42" "Dune" ["Frank Herbert"] (some "978-0-441-01359-3")).isbns =
      ["978-0-441-01359-3"] ∧
    digitsOnly "978-0-441-01359-3" = false ∧
    (buildOwnedEntry ⟨"7", "Dune", "", [], [⟨some "978-0-441-01359-3", none⟩]⟩).isbns =
      ["978-0-441-01359-3"] ∧
    is_book_already_owned "Zzz" [] (some "978-0-441-01359-3")
      [synthEntry "42" "Dune" ["Frank Herbert"] (some "978-0-441-01359-3")] = none :=
  ⟨by rfl, by rfl, by rfl, by rfl⟩

/-- C6 (amended): snapshot entries store isbn strings exactly as supplied —
a synthesised entry holds the local book's raw isbn, and every isbn of a
fetched entry occurs verbatim in some edition of the remote payload; no
normalisation is applied to stored isbns (only the candidate isbn is
normalised before comparison). -/
theorem c6_amended_isbns_verbatim :
    (∀ cid t auths i, i ≠ "" →
      (synthEntry cid t auths (some i)).isbns = [i]) ∧
    (∀ eds s, s ∈ extractIsbns eds →
      ∃ ed ∈ eds, ed.isbn10 = some s ∨ ed.isbn13 = some s) ∧
    (∀ bd, (buildOwnedEntry bd).isbns = extractIsbns bd.editions) := by
  refine ⟨?_, ?_, fun bd => rfl⟩
  · intro cid t auths i hi
    simp [synthEntry, hi]
  · intro eds s hs
    rcases List.mem_flatMap.mp hs with ⟨ed, hed, hmem⟩
    refine ⟨ed, hed, ?_⟩
    unfold edIsbns at hmem
    rcases List.mem_append.mp hmem with h | h
    · exact Or.inl (mem_truthyOpt h)
    · exact Or.inr (mem_truthyOpt h)

/-- C6 amended, exercised at concrete inputs. -/
theorem c6_amended_witness :
    (synthEntry "42" "Dune" [] (some "978-0-441-01359-3")).isbns = ["978-0-441-01359-3"] ∧
    ∃ ed ∈ [(⟨some "9780441013593", none⟩ : EditionData)],
      ed.isbn10 = some "9780441013593" ∨ ed.isbn13 = some "9780441013593" :=
  ⟨c6_amended_isbns_verbatim.1 "42" "Dune" [] "978-0-441-01359-3" (by decide),
   c6_amended_isbns_verbatim.2.1 [⟨some "9780441013593", none⟩] "9780441013593" (by decide)⟩

/-- The `self.results` accumulator of `SyncJob`. -/
structure SyncResults where
  added_to_owned : Nat
  skipped_already_owned : Nat
  created_new_books : Nat
  existing_owned_count : Nat
  errors : Nat
  error_details : List String
deriving DecidableEq

/-- `SyncJob.__init__`: every counter zero, no details. -/
def initResults : SyncResults :=
  { added_to_owned := 0, skipped_already_owned := 0, created_new_books := 0,
    existing_owned_count := 0, errors := 0, error_details := [] }

/-- STEP 1 of `SyncJob.run`: fetch the snapshot and record its size.
`get_owned_books_with_titles` never raises (it catches internally), so the
surrounding `except` in `run` never fires and no error detail is added. -/
def fetchPhase (resp : Except String (Option (List UserBook))) (st : SyncResults) :
    SyncResults × List Entry :=
  let owned := get_owned_books_with_titles resp
  ({ st with existing_owned_count := owned.length }, owned)

/-- What reading one book's metadata from calibre yields: a raised
exception, or the title (`None`/empty falls back to "Unknown Title"),
authors and optional isbn. -/
inductive MetaResult where
  | fail (msg : String)
  | ok (title : Option String) (authors : List String) (isbn : Option String)
deriving DecidableEq

/-- `title = metadata.title or 'Unknown Title'`. -/
def effTitle : Option String → String
  | none => "Unknown Title"
  | some s => if s == "" then "Unknown Title" else s

/-- An element of `books_to_process`. -/
structure QueuedBook where
  calibreId : Nat
  title : String
  authors : List String
  isbn : Option String
deriving DecidableEq

/-- One iteration of the STEP 2 comparison loop: a metadata-read failure
counts one error with one detail; a matcher hit counts one skip; otherwise
the book is queued. -/
def compareStep (owned : List Entry) (acc : SyncResults × List QueuedBook)
    (bk : Nat × MetaResult) : SyncResults × List QueuedBook :=
  match bk.2 with
  | MetaResult.fail msg =>
      ({ acc.1 with
          errors := acc.1.errors + 1,
          error_details := acc.1.error_details ++
            ["Failed to read book " ++ toString bk.1 ++ ": " ++ msg] }, acc.2)
  | MetaResult.ok t auths i =>
      match is_book_already_owned (effTitle t) auths i owned with
      | some _ =>
          ({ acc.1 with
              skipped_already_owned := acc.1.skipped_already_owned + 1 }, acc.2)
      | none => (acc.1, acc.2 ++ [⟨bk.1, effTitle t, auths, i⟩])

/-- The whole STEP 2 comparison loop. -/
def comparePhase (owned : List Entry) (init : SyncResults × List QueuedBook)
    (books : List (Nat × MetaResult)) : SyncResults × List QueuedBook :=
  List.foldl (compareStep owned) init books

/-- The remote calls one processed book can trigger, as trace events. -/
inductive RemoteCall where
  | searchIsbn (isbn : String)
  | searchTitle (title : String)
  | create (title : String)
  | markOwned (id : String)
deriving DecidableEq

/-- The oracle for one queued book's remote interactions: what the isbn
search would return, what the title search would return, what
`create_book_on_hardcover` would yield (`Except.error` for a raise, else
the optional new id), and whether `add_book_to_owned` would succeed
(it never raises: it catches internally and returns a bool). -/
structure ProcEnv where
  isbnSearch : List Candidate
  titleSearch : List Candidate
  createResult : Except String (Option String)
  markOwnedResult : Bool

/-- The search cascade of STEP 3 and its trace: isbn search only when the
book's isbn is truthy, title search only when that yielded nothing. -/
def searchStep (b : QueuedBook) (env : ProcEnv) : List Candidate × List RemoteCall :=
  match b.isbn with
  | some i =>
      if i == "" then (env.titleSearch, [RemoteCall.searchTitle b.title])
      else if env.isbnSearch.isEmpty then
        (env.titleSearch, [RemoteCall.searchIsbn i, RemoteCall.searchTitle b.title])
      else (env.isbnSearch, [RemoteCall.searchIsbn i])
  | none => (env.titleSearch, [RemoteCall.searchTitle b.title])

/-- The `if hardcover_book_id:` tail of STEP 3: call `add_book_to_owned`;
on success count one add and upsert the synthesised entry into the
snapshot; on failure count one error with one detail. A falsy id skips the
call silently. -/
def ownBook (st : SyncResults) (owned : List Entry) (b : QueuedBook) (env : ProcEnv)
    (cid : String) (calls : List RemoteCall) : SyncResults × List Entry × List RemoteCall :=
  if cid == "" then (st, owned, calls)
  else if env.markOwnedResult then
    ({ st with added_to_owned := st.added_to_owned + 1 },
     upsertEntry owned (synthEntry cid b.title b.authors b.isbn),
     calls ++ [RemoteCall.markOwned cid])
  else
    ({ st with
        errors := st.errors + 1,
        error_details := st.error_details ++
          ["Failed to add \x27" ++ b.title ++ "\x27 to owned list"] },
     owned, calls ++ [RemoteCall.markOwned cid])

/-- The body of one STEP 3 iteration, inside the per-book `try`. The only
raise site is reading `['id']` off the first search candidate (every
remote helper catches its own exceptions); a candidate without an id
raises the `KeyError` which the per-book handler will catch. An empty
search result goes through creation: a raise or a missing id counts one
error with one detail and skips the mark-owned step; a created id is
counted and then marked owned. -/
def procBody (owned : List Entry) (st : SyncResults) (b : QueuedBook) (env : ProcEnv) :
    Except String (SyncResults × List Entry × List RemoteCall) :=
  match (searchStep b env).1 with
  | c :: _ =>
      match c.id with
      | none => Except.error "\x27id\x27"
      | some cid => Except.ok (ownBook st owned b env cid (searchStep b env).2)
  | [] =>
      match env.createResult with
      | Except.error e =>
          Except.ok ({ st with
              errors := st.errors + 1,
              error_details := st.error_details ++
                ["Error creating \x27" ++ b.title ++ "\x27: " ++ e] },
            owned, (searchStep b env).2 ++ [RemoteCall.create b.title])
      | Except.ok none =>
          Except.ok ({ st with
              errors := st.errors + 1,
              error_details := st.error_details ++ ["Failed to create book: " ++ b.title] },
            owned, (searchStep b env).2 ++ [RemoteCall.create b.title])
      | Except.ok (some cid) =>
          Except.ok (ownBook { st with created_new_books := st.created_new_books + 1 }
            owned b env cid ((searchStep b env).2 ++ [RemoteCall.create b.title]))

/-- One full STEP 3 iteration: the per-book `except` catches whatever the
body raised and converts it into one error with one detail, leaving the
snapshot untouched; the trace is only observable through `procBody`. -/
def processStep (acc : SyncResults × List Entry) (item : QueuedBook × ProcEnv) :
    SyncResults × List Entry :=
  match procBody acc.2 acc.1 item.1 item.2 with
  | Except.ok r => (r.1, r.2.1)
  | Except.error msg =>
      ({ acc.1 with
          errors := acc.1.errors + 1,
          error_details := acc.1.error_details ++
            ["Error processing \x27" ++ item.1.title ++ "\x27: " ++ msg] }, acc.2)

/-- The whole STEP 3 processing loop. -/
def processPhase (init : SyncResults × List Entry)
    (items : List (QueuedBook × ProcEnv)) : SyncResults × List Entry :=
  List.foldl processStep init items

/-- A whole `SyncJob.run`: fetch, compare, process (each queued book paired
positionally with its remote oracle). -/
def run_sync (resp : Except String (Option (List UserBook)))
    (books : List (Nat × MetaResult)) (envs : List ProcEnv) : SyncResults × List Entry :=
  let f := fetchPhase resp initResults
  let c := comparePhase f.2 (f.1, []) books
  processPhase (c.1, f.2) (c.2.zip envs)

/-- C5: a snapshot-fetch failure is swallowed inside
`get_owned_books_with_titles` (which catches every exception and returns
the empty dict), so the run proceeds exactly as for an empty library:
no error description reaches `error_details`, the snapshot is empty,
`existing_owned_count` is 0, and the rest of the run is unchanged. -/
theorem c5_fetch_failure_silent :
    (∀ e books envs,
      run_sync (Except.error e) books envs = run_sync (Except.ok (some [])) books envs) ∧
    (∀ e st, fetchPhase (Except.error e) st = ({ st with existing_owned_count := 0 }, [])) ∧
    (∀ e st, (fetchPhase (Except.error e) st).1.error_details = st.error_details) :=
  ⟨fun _ _ _ => rfl, fun _ _ => rfl, fun _ _ => rfl⟩

/-- A processing iteration whose body raises turns into exactly one error
and one detail, with the snapshot kept. -/
lemma processStep_error (acc : SyncResults × List Entry) (b : QueuedBook) (env : ProcEnv)
    (msg : String) (h : procBody acc.2 acc.1 b env = Except.error msg) :
    processStep acc (b, env) =
      ({ acc.1 with
          errors := acc.1.errors + 1,
          error_details := acc.1.error_details ++
            ["Error processing \x27" ++ b.title ++ "\x27: " ++ msg] }, acc.2) := by
  simp only [processStep]
  rw [h]

/-- C3: per-book isolation. A metadata-read failure in the comparison loop
contributes exactly one error and one detail and the loop then continues
on the remaining books from that state; a raise inside one processing
iteration is caught by the per-book handler, contributes exactly one error
and one detail, leaves the snapshot untouched, and the loop continues on
the remaining books. The books before and after the failing position are
folded exactly as they would otherwise be. -/
theorem c3_per_book_isolation :
    (∀ owned init pre post i msg,
      comparePhase owned init (pre ++ (i, MetaResult.fail msg) :: post) =
        comparePhase owned
          ({ (comparePhase owned init pre).1 with
              errors := (comparePhase owned init pre).1.errors + 1,
              error_details := (comparePhase owned init pre).1.error_details ++
                ["Failed to read book " ++ toString i ++ ": " ++ msg] },
            (comparePhase owned init pre).2) post) ∧
    (∀ init pre post b env msg,
      procBody (processPhase init pre).2 (processPhase init pre).1 b env =
        Except.error msg →
      processPhase init (pre ++ (b, env) :: post) =
        processPhase
          ({ (processPhase init pre).1 with
              errors := (processPhase init pre).1.errors + 1,
              error_details := (processPhase init pre).1.error_details ++
                ["Error processing \x27" ++ b.title ++ "\x27: " ++ msg] },
            (processPhase init pre).2) post) := by
  constructor
  · intro owned init pre post i msg
    unfold comparePhase
    rw [List.foldl_append, List.foldl_cons]
    rfl
  · intro init pre post b env msg h
    unfold processPhase at h ⊢
    rw [List.foldl_append, List.foldl_cons,
      processStep_error (List.foldl processStep init pre) b env msg h]

/-- C3 exercised at a concrete input: a queued book whose only search
candidate has no `id` key raises `KeyError`, which costs exactly one error
and one detail and leaves the fold ready to continue. -/
theorem c3_isolation_witness :
    processPhase (initResults, [])
        [(⟨1, "T", [], some "123"⟩, ⟨[⟨none, "x"⟩], [], Except.ok none, false⟩)] =
      processPhase ({ initResults with
          errors := initResults.errors + 1,
          error_details := initResults.error_details ++
            ["Error processing \x27" ++ "T" ++ "\x27: " ++ "\x27id\x27"] }, []) [] :=
  c3_per_book_isolation.2 (initResults, []) [] []
    ⟨1, "T", [], some "123"⟩ ⟨[⟨none, "x"⟩], [], Except.ok none, false⟩ "\x27id\x27" rfl

/-- When both searches would come back empty, the cascade yields no
candidate. -/
lemma searchStep_empty (b : QueuedBook) (env : ProcEnv)
    (hs1 : env.isbnSearch = []) (hs2 : env.titleSearch = []) :
    (searchStep b env).1 = [] := by
  cases hb : b.isbn with
  | none => simp [searchStep, hb, hs2]
  | some i =>
    by_cases hi : i == ""
    · simp [searchStep, hb, hi, hs2]
    · simp [searchStep, hb, hi, hs1, hs2]

/-- The search cascade never records a mark-owned call. -/
lemma searchStep_no_markOwned (b : QueuedBook) (env : ProcEnv) (cid : String) :
    RemoteCall.markOwned cid ∉ (searchStep b env).2 := by
  cases hb : b.isbn with
  | none => simp [searchStep, hb]
  | some i =>
    by_cases hi : i == ""
    · simp [searchStep, hb, hi]
    · by_cases he : env.isbnSearch.isEmpty
      · simp [searchStep, hb, hi, he]
      · simp [searchStep, hb, hi, he]

/-- C8: a queued book whose search yields no candidate and whose creation
fails — by returning no id or by raising — costs exactly one error and one
detail naming the book, leaves the snapshot and every other counter
(including `created_new_books` and `added_to_owned`) unchanged, and its
remote-call trace contains no mark-owned call. -/
theorem c8_create_failure_no_mark_owned (st : SyncResults) (owned : List Entry)
    (b : QueuedBook) (env : ProcEnv)
    (hs1 : env.isbnSearch = []) (hs2 : env.titleSearch = []) :
    (env.createResult = Except.ok none →
      procBody owned st b env =
        Except.ok ({ st with
            errors := st.errors + 1,
            error_details := st.error_details ++ ["Failed to create book: " ++ b.title] },
          owned, (searchStep b env).2 ++ [RemoteCall.create b.title])) ∧
    (∀ e, env.createResult = Except.error e →
      procBody owned st b env =
        Except.ok ({ st with
            errors := st.errors + 1,
            error_details := st.error_details ++
              ["Error creating \x27" ++ b.title ++ "\x27: " ++ e] },
          owned, (searchStep b env).2 ++ [RemoteCall.create b.title])) ∧
    (∀ cid, RemoteCall.markOwned cid ∉
      (searchStep b env).2 ++ [RemoteCall.create b.title]) := by
  have hempty := searchStep_empty b env hs1 hs2
  refine ⟨?_, ?_, ?_⟩
  · intro hc
    simp only [procBody]
    rw [hempty, hc]
  · intro e hc
    simp only [procBody]
    rw [hempty, hc]
  · intro cid
    intro hmem
    rcases List.mem_append.mp hmem with h | h
    · exact searchStep_no_markOwned b env cid h
    · simp at h

/-- C8 exercised at a concrete input: empty searches and a creation that
returns no id. -/
theorem c8_create_failure_witness :
    procBody [] initResults ⟨1, "Dune", ["Frank Herbert"], some "9780441013593"⟩
        ⟨[], [], Except.ok none, false⟩ =
      Except.ok ({ initResults with
          errors := initResults.errors + 1,
          error_details := initResults.error_details ++
            ["Failed to create book: " ++ "Dune"] },
        [], (searchStep ⟨1, "Dune", ["Frank Herbert"], some "9780441013593"⟩
            ⟨[], [], Except.ok none, false⟩).2 ++ [RemoteCall.create "Dune"]) :=
  (c8_create_failure_no_mark_owned initResults []
    ⟨1, "Dune", ["Frank Herbert"], some "9780441013593"⟩
    ⟨[], [], Except.ok none, false⟩ rfl rfl).1 rfl

/-- `ownBook` either leaves the snapshot and the `added_to_owned` counter
untouched, or — only with a successful mark-owned — counts one add and
upserts the synthesised entry. -/
lemma ownBook_frame (st : SyncResults) (owned : List Entry) (b : QueuedBook) (env : ProcEnv)
    (cid : String) (calls : List RemoteCall) :
    ((ownBook st owned b env cid calls).2.1 = owned ∧
      (ownBook st owned b env cid calls).1.added_to_owned = st.added_to_owned) ∨
    (env.markOwnedResult = true ∧
      (ownBook st owned b env cid calls).1.added_to_owned = st.added_to_owned + 1 ∧
      (ownBook st owned b env cid calls).2.1 =
        upsertEntry owned (synthEntry cid b.title b.authors b.isbn)) := by
  unfold ownBook
  by_cases h1 : cid == ""
  · simp [h1]
  · by_cases h2 : env.markOwnedResult
    · simp [h1, h2]
    · simp [h1, h2]

/-- Whatever path `procBody` takes, the snapshot it returns is either the
old one (with `added_to_owned` unchanged) or the upsert of a synthesised
entry, the latter only when the mark-owned oracle succeeds. -/
lemma procBody_frame (owned : List Entry) (st : SyncResults) (b : QueuedBook) (env : ProcEnv)
    (r : SyncResults × List Entry × List RemoteCall)
    (h : procBody owned st b env = Except.ok r) :
    (r.2.1 = owned ∧ r.1.added_to_owned = st.added_to_owned) ∨
    (env.markOwnedResult = true ∧ r.1.added_to_owned = st.added_to_owned + 1 ∧
      ∃ cid, r.2.1 = upsertEntry owned (synthEntry cid b.title b.authors b.isbn)) := by
  unfold procBody at h
  rcases hsr : (searchStep b env).1 with _ | ⟨c, rest⟩
  · rw [hsr] at h
    rcases hcr : env.createResult with e | o
    · rw [hcr] at h
      cases h
      left
      exact ⟨rfl, rfl⟩
    · rcases o with _ | cid
      · rw [hcr] at h
        cases h
        left
        exact ⟨rfl, rfl⟩
      · rw [hcr] at h
        cases h
        rcases ownBook_frame { st with created_new_books := st.created_new_books + 1 }
            owned b env cid ((searchStep b env).2 ++ [RemoteCall.create b.title]) with
          ⟨ha, hb⟩ | ⟨hm, ha, hb⟩
        · left
          exact ⟨ha, hb⟩
        · right
          exact ⟨hm, ha, cid, hb⟩
  · rw [hsr] at h
    simp only at h
    rcases hid : c.id with _ | cid
    · rw [hid] at h
      simp at h
    · rw [hid] at h
      simp only at h
      cases h
      rcases ownBook_frame st owned b env cid (searchStep b env).2 with
        ⟨ha, hb⟩ | ⟨hm, ha, hb⟩
      · left
        exact ⟨ha, hb⟩
      · right
        exact ⟨hm, ha, cid, hb⟩

/-- C10: when the mark-owned oracle reports failure, one processing
iteration leaves the in-memory snapshot exactly as it was and does not
increment `added_to_owned`; conversely, the snapshot can only change after
a successful mark-owned, and then only into the upsert of the synthesised
entry for that book. -/
theorem c10_mark_owned_failure_frame (st : SyncResults) (owned : List Entry)
    (b : QueuedBook) (env : ProcEnv) :
    (env.markOwnedResult = false →
      (processStep (st, owned) (b, env)).2 = owned ∧
      (processStep (st, owned) (b, env)).1.added_to_owned = st.added_to_owned) ∧
    ((processStep (st, owned) (b, env)).2 ≠ owned →
      env.markOwnedResult = true ∧
      ∃ cid, (processStep (st, owned) (b, env)).2 =
        upsertEntry owned (synthEntry cid b.title b.authors b.isbn)) := by
  rcases hpb : procBody owned st b env with msg | r
  · have h2 : (processStep (st, owned) (b, env)).2 = owned := by
      simp [processStep, hpb]
    have h1 : (processStep (st, owned) (b, env)).1.added_to_owned = st.added_to_owned := by
      simp [processStep, hpb]
    exact ⟨fun _ => ⟨h2, h1⟩, fun hne => absurd h2 hne⟩
  · have h2 : (processStep (st, owned) (b, env)).2 = r.2.1 := by
      simp [processStep, hpb]
    have h1 : (processStep (st, owned) (b, env)).1 = r.1 := by
      simp [processStep, hpb]
    rcases procBody_frame owned st b env r hpb with ⟨ha, hb⟩ | ⟨hm, ha, cid, hb⟩
    · refine ⟨fun _ => ⟨h2.trans ha, ?_⟩, fun hne => absurd (h2.trans ha) hne⟩
      rw [h1]
      exact hb
    · refine ⟨fun hf => ?_, fun _ => ⟨hm, cid, h2.trans hb⟩⟩
      rw [hf] at hm
      exact absurd hm (by simp)

/-- C10 exercised at concrete inputs: a failing mark-owned leaves the
snapshot empty and the add counter at zero; flipping only the mark-owned
oracle to success is the one way the snapshot gains the synthesised
entry. -/
theorem c10_frame_witness :
    ((processStep (initResults, [])
        (⟨1, "Dune", [], none⟩, ⟨[], [⟨some "42", "Dune"⟩], Except.ok none, false⟩)).2 = [] ∧
      (processStep (initResults, [])
        (⟨1, "Dune", [], none⟩,
          ⟨[], [⟨some "42", "Dune"⟩], Except.ok none, false⟩)).1.added_to_owned =
        initResults.added_to_owned) ∧
    ((⟨[], [⟨some "42", "Dune"⟩], Except.ok none, true⟩ : ProcEnv).markOwnedResult = true ∧
      ∃ cid, (processStep (initResults, [])
          (⟨1, "Dune", [], none⟩, ⟨[], [⟨some "42", "Dune"⟩], Except.ok none, true⟩)).2 =
        upsertEntry [] (synthEntry cid "Dune" [] none)) :=
  ⟨(c10_mark_owned_failure_frame initResults [] ⟨1, "Dune", [], none⟩
      ⟨[], [⟨some "42", "Dune"⟩], Except.ok none, false⟩).1 rfl,
   (c10_mark_owned_failure_frame initResults [] ⟨1, "Dune", [], none⟩
      ⟨[], [⟨some "42", "Dune"⟩], Except.ok none, true⟩).2 (by decide)⟩

/-- The sequence of `self.percent` values written during the STEP 2
comparison loop over `total` books: `int((i / total_books) * 20)`,
in exact arithmetic `i * 20 / total`. -/
def compareWrites (total : Nat) : List Nat :=
  (List.range total).map (fun i => i * 20 / total)

/-- The sequence of `self.percent` values written during the STEP 3
processing loop over `l` queued books: `20 + int((i / len) * 80)`. -/
def processWrites (l : Nat) : List Nat :=
  (List.range l).map (fun i => 20 + i * 80 / l)

/-- Every `self.percent` write of one (normally completing) run, in
program order: the comparison writes, the processing writes, then the
final `self.percent = 100`. -/
def progressWrites (total l : Nat) : List Nat :=
  compareWrites total ++ processWrites l ++ [100]

/-- Comparison-phase progress stays at or below 20. -/
lemma compareWrites_le (t : Nat) : ∀ v ∈ compareWrites t, v ≤ 20 := by
  intro v hv
  rcases List.mem_map.mp hv with ⟨i, hi, rfl⟩
  have hit : i < t := List.mem_range.mp hi
  have ht : 0 < t := Nat.lt_of_le_of_lt (Nat.zero_le i) hit
  calc i * 20 / t ≤ t * 20 / t :=
        Nat.div_le_div_right (Nat.mul_le_mul_right 20 (Nat.le_of_lt hit))
    _ = 20 := Nat.mul_div_cancel_left 20 ht

/-- Processing-phase progress stays between 20 and 100. -/
lemma processWrites_bounds (l : Nat) : ∀ v ∈ processWrites l, 20 ≤ v ∧ v ≤ 100 := by
  intro v hv
  rcases List.mem_map.mp hv with ⟨i, hi, rfl⟩
  have hit : i < l := List.mem_range.mp hi
  have hl : 0 < l := Nat.lt_of_le_of_lt (Nat.zero_le i) hit
  refine ⟨Nat.le_add_right 20 _, ?_⟩
  have h80 : i * 80 / l ≤ 80 := by
    calc i * 80 / l ≤ l * 80 / l :=
          Nat.div_le_div_right (Nat.mul_le_mul_right 80 (Nat.le_of_lt hit))
      _ = 80 := Nat.mul_div_cancel_left 80 hl
  omega

/-- The comparison writes are nondecreasing. -/
lemma compareWrites_sorted (t : Nat) : List.Sorted (· ≤ ·) (compareWrites t) :=
  List.Pairwise.map _
    (fun _ _ hab => Nat.div_le_div_right (Nat.mul_le_mul_right 20 (Nat.le_of_lt hab)))
    (List.sorted_lt_range t)

/-- The processing writes are nondecreasing. -/
lemma processWrites_sorted (l : Nat) : List.Sorted (· ≤ ·) (processWrites l) :=
  List.Pairwise.map _
    (fun _ _ hab => Nat.add_le_add_left
      (Nat.div_le_div_right (Nat.mul_le_mul_right 80 (Nat.le_of_lt hab))) 20)
    (List.sorted_lt_range l)

/-- C9: over one run the written progress sequence never decreases, the
comparison phase stays within 0–20, the processing phase within 20–100,
and the last write is exactly 100. -/
theorem c9_progress_monotone_bounded (t l : Nat) :
    List.Sorted (· ≤ ·) (progressWrites t l) ∧
    (∀ v ∈ compareWrites t, v ≤ 20) ∧
    (∀ v ∈ processWrites l, 20 ≤ v ∧ v ≤ 100) ∧
    (progressWrites t l).getLast? = some 100 := by
  refine ⟨?_, compareWrites_le t, processWrites_bounds l, ?_⟩
  · unfold progressWrites List.Sorted
    rw [List.pairwise_append, List.pairwise_append]
    refine ⟨⟨compareWrites_sorted t, processWrites_sorted l, ?_⟩,
      List.pairwise_singleton _ _, ?_⟩
    · intro a ha b hb
      exact Nat.le_trans (compareWrites_le t a ha) (processWrites_bounds l b hb).1
    · intro a ha b hb
      rcases List.mem_singleton.mp hb with rfl
      rcases List.mem_append.mp ha with h | h
      · exact Nat.le_trans (compareWrites_le t a h) (by omega)
      · exact (processWrites_bounds l a h).2
  · unfold progressWrites
    exact List.getLast?_concat _

/-- C9 exercised at a concrete run shape (3 compared books, 2 processed):
writes `[0, 6, 13, 20, 60, 100]`. -/
theorem c9_progress_witness :
    List.Sorted (· ≤ ·) (progressWrites 3 2) ∧ (13 : Nat) ≤ 20 ∧
    (20 ≤ 60 ∧ 60 ≤ 100) ∧ (progressWrites 3 2).getLast? = some 100 :=
  ⟨(c9_progress_monotone_bounded 3 2).1,
   (c9_progress_monotone_bounded 3 2).2.1 13 (by decide),
   (c9_progress_monotone_bounded 3 2).2.2.1 60 (by decide),
   (c9_progress_monotone_bounded 3 2).2.2.2⟩
